import Mathlib

/-!
Shallow embedding of the library-catalog service (storage clients, book
repository, book service) and proofs of the specification's claims about it.

Strings are modelled as lists of characters (`Str`), timestamps as abstract
integer instants (`DT`), storage-level untyped records as a structure whose
fields are `Option`-valued (a `none` field stands for a key that is missing
from the dict, or whose value is `None` where Python's `.get` collapses the
two).  The storage backend used by the repository and service layers is the
in-memory variant: a plain list of records, together with a log of every
`save_data` payload so that "the write path was never invoked" is expressible.
-/

namespace LibraryCatalog

abbrev Str := List Char

abbrev DT := Int

/-- Python `str.lower()`. -/
def strLower (s : Str) : Str := s.map Char.toLower

/-- Boolean "is a prefix of" on character lists. -/
def isPrefixB : Str → Str → Bool
  | [], _ => true
  | _ :: _, [] => false
  | a :: as, b :: bs => a == b && isPrefixB as bs

/-- Python's substring test `needle in hay`. -/
def containsSub : Str → Str → Bool
  | [], needle => needle.isEmpty
  | c :: t, needle => isPrefixB needle (c :: t) || containsSub t needle

/-- Python truthiness of an optional string: `None` and `""` are falsy. -/
def strOptFalsy : Option Str → Bool
  | none => true
  | some s => s.isEmpty

/-- `src/models/book.py` `BookStatus`: the four allowed status values. -/
inductive BookStatus
  | available
  | borrowed
  | reserved
  | maintenance
  deriving DecidableEq, Repr

/-- `.value` of the (string-valued) status enum. -/
def BookStatus.value : BookStatus → Str
  | .available => "available".data
  | .borrowed => "borrowed".data
  | .reserved => "reserved".data
  | .maintenance => "maintenance".data

/-- A storage-level untyped record (a Python dict holding one book).
A `none` field models a missing key (or a `None` value: every read of these
dicts goes through `.get`, which does not distinguish the two). -/
structure Record where
  id : Option Int
  title : Option Str
  author : Option Str
  year_of_releasing : Option Int
  genre : Option Str
  amount_of_pages : Option Int
  status : Option Str
  isbn : Option Str
  cover_url : Option Str
  description : Option Str
  subjects : Option (List Str)
  created_at : Option DT
  updated_at : Option DT
  deriving DecidableEq, Repr

/-- `src/domain/entities.py` `BookEntity`. -/
structure BookEntity where
  title : Str
  author : Str
  year_of_releasing : Int
  genre : Str
  amount_of_pages : Int
  status : Str
  id : Option Int := none
  isbn : Option Str := none
  cover_url : Option Str := none
  description : Option Str := none
  subjects : List Str := []
  created_at : Option DT := none
  updated_at : Option DT := none
  deriving DecidableEq, Repr

/-- `src/models/book.py` `Book` (API response model).  The `status` field
holds the status string (Python's `BookStatus` is a `str` subclass).  Note:
the model has no `subjects` field. -/
structure Book where
  id : Option Int
  title : Str
  author : Str
  year_of_releasing : Int
  genre : Str
  amount_of_pages : Int
  status : Str
  isbn : Option Str
  cover_url : Option Str
  description : Option Str
  created_at : Option DT
  updated_at : Option DT
  deriving DecidableEq, Repr

/-- `src/models/book.py` `BookCreate`. -/
structure BookCreate where
  title : Str
  author : Str
  year_of_releasing : Int
  genre : Str
  amount_of_pages : Int
  status : BookStatus := .available
  isbn : Option Str := none
  description : Option Str := none
  deriving DecidableEq, Repr

/-- `src/models/book.py` `BookUpdate`: every field optional; `none` models a
field absent from `model_dump(exclude_unset=True)`. -/
structure BookUpdate where
  title : Option Str := none
  author : Option Str := none
  year_of_releasing : Option Int := none
  genre : Option Str := none
  amount_of_pages : Option Int := none
  status : Option BookStatus := none
  isbn : Option Str := none
  description : Option Str := none
  deriving DecidableEq, Repr

/-- `src/models/book.py` `BookFilters`. -/
structure BookFilters where
  title : Option Str := none
  author : Option Str := none
  status : Option BookStatus := none
  genre : Option Str := none
  offset : Nat := 0
  limit : Nat := 20
  deriving DecidableEq, Repr

/-- `src/models/book.py` `PaginatedBooks`. -/
structure PaginatedBooks where
  items : List Book
  total : Nat
  offset : Nat
  limit : Nat
  has_next : Bool
  deriving DecidableEq, Repr

/-- `PaginatedBooks.create`: convenience constructor computing `has_next`. -/
def PaginatedBooks.create (items : List Book) (total : Nat) (offset : Nat)
    (limit : Nat) : PaginatedBooks :=
  { items := items, total := total, offset := offset, limit := limit,
    has_next := decide (offset + limit < total) }

/-- The in-memory storage backend state, with a log of every `save_data`
payload (so "the write path was not invoked" is `writes` unchanged). -/
structure Store where
  data : List Record
  writes : List (List Record)
  deriving DecidableEq, Repr

namespace BookRepository

/-- `BookRepository._dict_to_entity`: convert an untyped record to a domain
entity, defaulting missing fields (strings to empty, numbers to 0, status to
"available", subjects to `[]`). -/
def dict_to_entity (r : Record) : BookEntity :=
  { id := r.id
    title := r.title.getD []
    author := r.author.getD []
    year_of_releasing := r.year_of_releasing.getD 0
    genre := r.genre.getD []
    amount_of_pages := r.amount_of_pages.getD 0
    status := r.status.getD "available".data
    isbn := r.isbn
    cover_url := r.cover_url
    description := r.description
    subjects := r.subjects.getD []
    created_at := r.created_at
    updated_at := r.updated_at }

/-- `BookRepository._entity_to_dict`: serialize a domain entity; every key is
written. -/
def entity_to_dict (b : BookEntity) : Record :=
  { id := b.id
    title := some b.title
    author := some b.author
    year_of_releasing := some b.year_of_releasing
    genre := some b.genre
    amount_of_pages := some b.amount_of_pages
    status := some b.status
    isbn := b.isbn
    cover_url := b.cover_url
    description := b.description
    subjects := some b.subjects
    created_at := b.created_at
    updated_at := b.updated_at }

/-- `BookRepository._apply_filters`: sequentially applies the title, author,
status and genre filters.  A title/author/genre filter runs only when the
filter string is truthy (present and non-empty) and keeps books whose
lowercased field contains the lowercased filter string; the status filter
compares the status string for plain equality. -/
def apply_filters (books : List BookEntity) (f : BookFilters) : List BookEntity :=
  let books := match f.title with
    | some t => if t.isEmpty then books else
        books.filter fun b => containsSub (strLower b.title) (strLower t)
    | none => books
  let books := match f.author with
    | some a => if a.isEmpty then books else
        books.filter fun b => containsSub (strLower b.author) (strLower a)
    | none => books
  let books := match f.status with
    | some st => books.filter fun b => b.status == st.value
    | none => books
  let books := match f.genre with
    | some g => if g.isEmpty then books else
        books.filter fun b => containsSub (strLower b.genre) (strLower g)
    | none => books
  books

/-- `BookRepository._generate_next_id`: 1 on an empty collection, otherwise
`max(book.get("id", 0) for book in books_data) + 1`. -/
def generate_next_id (data : List Record) : Int :=
  match data with
  | [] => 1
  | r :: rs => (rs.foldl (fun m x => max m (x.id.getD 0)) (r.id.getD 0)) + 1

/-- `BookRepository.get_all`: load, convert, filter, then slice
`[offset : offset + limit]`. -/
def get_all (f : BookFilters) (s : Store) : List BookEntity :=
  let books := s.data.map dict_to_entity
  let filtered := apply_filters books f
  (filtered.drop f.offset).take f.limit

/-- `BookRepository.get_by_id`: linear scan for the first record whose `id`
key equals the requested id. -/
def get_by_id (k : Int) (s : Store) : Option BookEntity :=
  match s.data.find? (fun r => r.id == some k) with
  | some r => some (dict_to_entity r)
  | none => none

/-- `BookRepository.create`: assign the next id, append the serialized
record, write back the whole collection. -/
def create (b : BookEntity) (s : Store) : BookEntity × Store :=
  let nid := generate_next_id s.data
  let b2 := { b with id := some nid }
  let newData := s.data ++ [entity_to_dict b2]
  (b2, { data := newData, writes := s.writes ++ [newData] })

/-- Helper for `update`: replace the first record whose id matches with the
serialized entity (whose id is forced to the looked-up id); `none` when no
record matches. -/
def updateData (k : Int) (b : BookEntity) : List Record → Option (List Record)
  | [] => none
  | r :: rs =>
    if r.id == some k then some (entity_to_dict { b with id := some k } :: rs)
    else match updateData k b rs with
      | some rs2 => some (r :: rs2)
      | none => none

/-- `BookRepository.update`: replace the first matching record wholesale and
write back; `none` (and no write) when the id is absent. -/
def update (k : Int) (b : BookEntity) (s : Store) : Option BookEntity × Store :=
  match updateData k b s.data with
  | some newData =>
      (some { b with id := some k },
       { data := newData, writes := s.writes ++ [newData] })
  | none => (none, s)

/-- `BookRepository.delete`: drop every record with the given id; write back
only if the collection shrank. -/
def delete (k : Int) (s : Store) : Bool × Store :=
  let newData := s.data.filter fun r => !(r.id == some k)
  if newData.length < s.data.length then
    (true, { data := newData, writes := s.writes ++ [newData] })
  else (false, s)

/-- `BookRepository.count_total`: size of the filtered collection before
pagination. -/
def count_total (f : BookFilters) (s : Store) : Nat :=
  (apply_filters (s.data.map dict_to_entity) f).length

end BookRepository

/-- `src/services/book_service.py` `entity_to_model`: domain entity to API
model.  The entity's `subjects` list has no counterpart on `Book` and is
dropped. -/
def entity_to_model (e : BookEntity) : Book :=
  { id := e.id
    title := e.title
    author := e.author
    year_of_releasing := e.year_of_releasing
    genre := e.genre
    amount_of_pages := e.amount_of_pages
    status := e.status
    isbn := e.isbn
    cover_url := e.cover_url
    description := e.description
    created_at := e.created_at
    updated_at := e.updated_at }

/-- `src/services/book_service.py` `model_to_entity`: creation input to a
fresh entity; both timestamps set to now, `id`, `cover_url` and `subjects`
left at their defaults. -/
def model_to_entity (now : DT) (m : BookCreate) : BookEntity :=
  { title := m.title
    author := m.author
    year_of_releasing := m.year_of_releasing
    genre := m.genre
    amount_of_pages := m.amount_of_pages
    status := m.status.value
    isbn := m.isbn
    description := m.description
    created_at := some now
    updated_at := some now }

/-- Result of the external metadata lookup (`get_book_metadata`'s dict). -/
structure Metadata where
  cover_url : Option Str := none
  description : Option Str := none
  isbn : Option Str := none
  subjects : List Str := []
  deriving DecidableEq, Repr

/-- The metadata capability: given title and author, either a metadata dict
or a failure. -/
abbrev MetadataService := Str → Str → Except Unit Metadata

/-- Errors raised by the service layer (`src/domain/exceptions.py`). -/
inductive ServiceErr
  | bookAlreadyExists
  | invalidBookData
  | bookNotFound
  deriving DecidableEq, Repr

namespace BookService

/-- `BookService._validate_book_creation`: fetch at most one candidate via
`get_all` with the input's title/author as filters and `limit = 1`, raise
`BookAlreadyExistsError` if that candidate matches (title, author)
case-insensitively, then check the year bounds. -/
def validate_book_creation (currentYear : Int) (input : BookCreate)
    (s : Store) : Except ServiceErr Unit :=
  let f : BookFilters :=
    { title := some input.title, author := some input.author,
      status := none, genre := none, offset := 0, limit := 1 }
  let existing := BookRepository.get_all f s
  if existing.any fun b =>
      strLower b.title == strLower input.title &&
      strLower b.author == strLower input.author then
    .error .bookAlreadyExists
  else if input.year_of_releasing > currentYear then
    .error .invalidBookData
  else if input.year_of_releasing < 1400 then
    .error .invalidBookData
  else
    .ok ()

/-- The field updates inside `BookService._enrich_with_metadata` after a
successful lookup: fill `cover_url` / `description` / `isbn` when the current
value is falsy (absent or empty) and the metadata value is truthy; replace
`subjects` whenever the metadata's subjects list is non-empty. -/
def enrich_apply (b : BookEntity) (m : Metadata) : BookEntity :=
  let b := if strOptFalsy b.cover_url && !(strOptFalsy m.cover_url) then
      { b with cover_url := m.cover_url } else b
  let b := if strOptFalsy b.description && !(strOptFalsy m.description) then
      { b with description := m.description } else b
  let b := if strOptFalsy b.isbn && !(strOptFalsy m.isbn) then
      { b with isbn := m.isbn } else b
  if !m.subjects.isEmpty then { b with subjects := m.subjects } else b

/-- `BookService._enrich_with_metadata`: call the capability with the
entity's title and author; on failure swallow the error and leave the entity
untouched. -/
def enrich_with_metadata (svc : MetadataService) (b : BookEntity) : BookEntity :=
  match svc b.title b.author with
  | .ok m => enrich_apply b m
  | .error _ => b

/-- `BookService.create_book`: validate, convert, enrich when a metadata
service is configured and title and author are truthy, persist via the
repository, return the API model.  The resulting store is returned alongside
(unchanged when validation fails). -/
def create_book (svc : Option MetadataService) (currentYear : Int) (now : DT)
    (input : BookCreate) (s : Store) : Except ServiceErr Book × Store :=
  match validate_book_creation currentYear input s with
  | .error e => (.error e, s)
  | .ok _ =>
    let b := model_to_entity now input
    let b := match svc with
      | some f =>
          if !input.title.isEmpty && !input.author.isEmpty then
            enrich_with_metadata f b
          else b
      | none => b
    let out := BookRepository.create b s
    (.ok (entity_to_model out.1), out.2)

/-- `BookService.get_book_by_id`. -/
def get_book_by_id (k : Int) (s : Store) : Option Book :=
  match BookRepository.get_by_id k s with
  | some e => some (entity_to_model e)
  | none => none

/-- The `setattr` loop of `BookService.update_book`: apply exactly the fields
present in the partial input. -/
def applyUpdate (e : BookEntity) (u : BookUpdate) : BookEntity :=
  let e := match u.title with | some t => { e with title := t } | none => e
  let e := match u.author with | some a => { e with author := a } | none => e
  let e := match u.year_of_releasing with
    | some y => { e with year_of_releasing := y } | none => e
  let e := match u.genre with | some g => { e with genre := g } | none => e
  let e := match u.amount_of_pages with
    | some p => { e with amount_of_pages := p } | none => e
  let e := match u.status with
    | some st => { e with status := st.value } | none => e
  let e := match u.isbn with | some i => { e with isbn := i } | none => e
  match u.description with | some d => { e with description := d } | none => e

/-- `BookService.update_book`: load (raising `BookNotFoundError` when
absent), apply the partial input, stamp `updated_at`, persist via the
repository. -/
def update_book (now : DT) (k : Int) (u : BookUpdate) (s : Store) :
    Except ServiceErr (Option Book) × Store :=
  match BookRepository.get_by_id k s with
  | none => (.error .bookNotFound, s)
  | some e =>
    let e2 := { applyUpdate e u with updated_at := some now }
    let out := BookRepository.update k e2 s
    match out.1 with
    | some ent => (.ok (some (entity_to_model ent)), out.2)
    | none => (.ok none, out.2)

/-- `BookService.delete_book`: check existence (raising `BookNotFoundError`
when absent) before delegating to the repository. -/
def delete_book (k : Int) (s : Store) : Except ServiceErr Bool × Store :=
  match BookRepository.get_by_id k s with
  | none => (.error .bookNotFound, s)
  | some _ =>
    let out := BookRepository.delete k s
    (.ok out.1, out.2)

/-- `BookService.get_filtered_books`: delegate to `get_all` / `count_total`
and assemble the paginated response. -/
def get_filtered_books (f : BookFilters) (s : Store) : PaginatedBooks :=
  let entities := BookRepository.get_all f s
  let total := BookRepository.count_total f s
  PaginatedBooks.create (entities.map entity_to_model) total f.offset f.limit

end BookService

/-- Failure kind for storage clients: the backend's own exception
propagating out of `get_data` / `save_data`. -/
inductive StorageFailure
  | backendError
  deriving DecidableEq, Repr

namespace FileStorageClient

/-- Observable states of the JSON file backing `FileStorageClient`. -/
inductive Backend
  | absent
  | blank
  | invalidJson
  | ioError
  | stored (records : List Record)
  deriving DecidableEq, Repr

/-- `FileStorageClient.get_data`: valid JSON is returned; a missing file,
blank content, invalid JSON, and any other read error all yield `[]` (every
exception branch returns an empty list). -/
def get_data : Backend → Except StorageFailure (List Record)
  | .stored rs => .ok rs
  | .absent => .ok []
  | .blank => .ok []
  | .invalidJson => .ok []
  | .ioError => .ok []

end FileStorageClient

namespace JsonBinStorageClient

/-- Observable states of the JSONBin.io document backing the client. -/
inductive Backend
  | unreachable
  | stored (records : List Record)
  deriving DecidableEq, Repr

/-- `JsonBinStorageClient.get_data`: the document's "record" array on
success; any exception (the service unreachable included) is caught and an
empty list returned. -/
def get_data : Backend → Except StorageFailure (List Record)
  | .stored rs => .ok rs
  | .unreachable => .ok []

end JsonBinStorageClient

namespace SQLAlchemyStorageClient

/-- Observable states of the relational backend: reachable with rows, or
unreachable.  A row carries no subjects column. -/
inductive Backend
  | unreachable
  | stored (rows : List Record)
  deriving DecidableEq, Repr

/-- `SQLAlchemyStorageClient.get_data`: select all rows and build dicts with
the twelve column keys (no subjects key); on any error, roll back and
re-raise the backend's exception. -/
def get_data : Backend → Except StorageFailure (List Record)
  | .stored rows => .ok (rows.map fun r => { r with subjects := none })
  | .unreachable => .error .backendError

end SQLAlchemyStorageClient

/-- A record is full when every field that `_dict_to_entity` would otherwise
default is actually present — exactly the shape `_entity_to_dict` writes. -/
def Record.isFull (r : Record) : Bool :=
  r.title.isSome && r.author.isSome && r.year_of_releasing.isSome &&
  r.genre.isSome && r.amount_of_pages.isSome && r.status.isSome &&
  r.subjects.isSome

/-- The empty partial update (`update_book(id, {})`). -/
def emptyBookUpdate : BookUpdate := {}

/-- A full stored record with the given id, title and author, used as
concrete input by witnesses and counterexamples. -/
def sampleRecord (i : Int) (t a : Str) : Record :=
  { id := some i, title := some t, author := some a,
    year_of_releasing := some 1965, genre := some "Sci-Fi".data,
    amount_of_pages := some 412, status := some "available".data,
    isbn := none, cover_url := none, description := none,
    subjects := some [], created_at := some 0, updated_at := some 0 }

/-- A concrete domain entity used by witnesses. -/
def sampleEntity : BookEntity :=
  { title := "Solaris".data, author := "Lem".data, year_of_releasing := 1961,
    genre := "Sci-Fi".data, amount_of_pages := 204,
    status := "available".data }

/-- A creation input whose `description` is explicitly the empty string. -/
def emptyDescInput : BookCreate :=
  { title := "Dune".data, author := "Herbert".data, year_of_releasing := 1965,
    genre := "Sci-Fi".data, amount_of_pages := 412,
    description := some [] }

/-- A metadata capability that always returns a description of "Great" and
nothing else. -/
def constDescMetadata : MetadataService :=
  fun _ _ => .ok { description := some "Great".data }

/-! ## Helper lemmas -/

/-- The empty needle is a substring of everything (as in Python). -/
theorem containsSub_nil (hay : Str) : containsSub hay [] = true := by
  cases hay <;> rfl

/-- Converting an entity to a storage record and back is the identity. -/
theorem dict_to_entity_entity_to_dict (b : BookEntity) :
    BookRepository.dict_to_entity (BookRepository.entity_to_dict b) = b := rfl

/-- On full records, converting to an entity and back is the identity. -/
theorem entity_to_dict_dict_to_entity (r : Record) (h : r.isFull = true) :
    BookRepository.entity_to_dict (BookRepository.dict_to_entity r) = r := by
  obtain ⟨i, t, a, y, g, p, st, isb, cv, d, sb, ca, ua⟩ := r
  simp only [Record.isFull, Bool.and_eq_true, Option.isSome_iff_exists] at h
  obtain ⟨⟨⟨⟨⟨⟨⟨t2, ht⟩, ⟨a2, ha⟩⟩, ⟨y2, hy⟩⟩, ⟨g2, hg⟩⟩, ⟨p2, hp⟩⟩,
    ⟨st2, hst⟩⟩, ⟨sb2, hsb⟩⟩ := h
  subst ht ha hy hg hp hst hsb
  rfl

/-- The initial accumulator is below the id-maximum fold. -/
theorem le_foldl_maxId (xs : List Record) (init : Int) :
    init ≤ xs.foldl (fun m x => max m (x.id.getD 0)) init := by
  induction xs generalizing init with
  | nil => exact le_refl _
  | cons x xs ih => exact le_trans (le_max_left _ _) (ih _)

/-- Every element's id is below the id-maximum fold. -/
theorem mem_le_foldl_maxId (xs : List Record) (init : Int) :
    ∀ r ∈ xs, r.id.getD 0 ≤ xs.foldl (fun m x => max m (x.id.getD 0)) init := by
  induction xs generalizing init with
  | nil => intro r h; cases h
  | cons x xs ih =>
    intro r h
    rcases List.mem_cons.mp h with h | h
    · subst h
      exact le_trans (le_max_right _ _) (le_foldl_maxId _ _)
    · exact ih _ r h

/-- Every stored id is strictly below the generated next id. -/
theorem id_lt_generate_next_id (data : List Record) :
    ∀ r ∈ data, r.id.getD 0 < BookRepository.generate_next_id data := by
  intro r h
  cases data with
  | nil => cases h
  | cons x xs =>
    have hle : r.id.getD 0 ≤
        xs.foldl (fun m y => max m (y.id.getD 0)) (x.id.getD 0) := by
      rcases List.mem_cons.mp h with h | h
      · subst h; exact le_foldl_maxId _ _
      · exact mem_le_foldl_maxId xs _ r h
    simpa [BookRepository.generate_next_id] using Int.lt_add_one_iff.mpr hle

/-- The id-maximum fold is the accumulator or is attained by some element. -/
theorem foldl_maxId_attained (xs : List Record) (init : Int) :
    xs.foldl (fun m x => max m (x.id.getD 0)) init = init ∨
    ∃ r ∈ xs, xs.foldl (fun m x => max m (x.id.getD 0)) init = r.id.getD 0 := by
  induction xs generalizing init with
  | nil => exact Or.inl rfl
  | cons x xs ih =>
    rcases ih (max init (x.id.getD 0)) with h | ⟨r, hr, h⟩
    · rcases max_choice init (x.id.getD 0) with hm | hm
      · exact Or.inl (by rw [List.foldl_cons, h, hm])
      · exact Or.inr ⟨x, List.mem_cons_self _ _, by rw [List.foldl_cons, h, hm]⟩
    · exact Or.inr ⟨r, List.mem_cons_of_mem _ hr, by rw [List.foldl_cons, h]⟩

/-- `find?` over a list split around the first satisfying element. -/
theorem find?_middle (p : Record → Bool) (l₁ l₂ : List Record) (r : Record)
    (h1 : ∀ x ∈ l₁, p x = false) (h2 : p r = true) :
    (l₁ ++ r :: l₂).find? p = some r := by
  induction l₁ with
  | nil => simp [List.find?_cons, h2]
  | cons x xs ih =>
    have hx := h1 x (List.mem_cons_self _ _)
    simp only [List.cons_append, List.find?_cons, hx]
    exact ih fun y hy => h1 y (List.mem_cons_of_mem _ hy)

/-- `updateData` replaces exactly the first matching record. -/
theorem updateData_middle (k : Int) (b : BookEntity) (l₁ l₂ : List Record)
    (r : Record) (h1 : ∀ x ∈ l₁, (x.id == some k) = false)
    (h2 : (r.id == some k) = true) :
    BookRepository.updateData k b (l₁ ++ r :: l₂) =
      some (l₁ ++ BookRepository.entity_to_dict { b with id := some k } :: l₂) := by
  induction l₁ with
  | nil => simp [BookRepository.updateData, h2]
  | cons x xs ih =>
    have hx := h1 x (List.mem_cons_self _ _)
    have ih2 := ih fun y hy => h1 y (List.mem_cons_of_mem _ hy)
    simp [BookRepository.updateData, hx, ih2]

/-- The `setattr` loop is the identity on the empty partial update. -/
theorem applyUpdate_empty (e : BookEntity) :
    BookService.applyUpdate e emptyBookUpdate = e := rfl

/-- Serialization commutes with stamping `updated_at`. -/
theorem entity_to_dict_set_updated_at (b : BookEntity) (v : Option DT) :
    BookRepository.entity_to_dict { b with updated_at := v } =
      { BookRepository.entity_to_dict b with updated_at := v } := rfl

/-- Python truthiness on an optional string, as a proposition. -/
theorem strOptFalsy_true_iff (o : Option Str) :
    strOptFalsy o = true ↔ (o = none ∨ o = some []) := by
  cases o with
  | none => simp [strOptFalsy]
  | some s => cases s <;> simp [strOptFalsy]

/-- The enrichment fill condition, as a proposition: the current value is
missing or empty and the metadata value is neither. -/
theorem fill_cond_iff (bo mo : Option Str) :
    (strOptFalsy bo && !(strOptFalsy mo)) = true ↔
      ((bo = none ∨ bo = some []) ∧ ¬(mo = none ∨ mo = some [])) := by
  rw [Bool.and_eq_true, Bool.not_eq_true', ← Bool.not_eq_true]
  rw [strOptFalsy_true_iff, strOptFalsy_true_iff]

/-- An `if` over a boolean equals the `if` over an equivalent proposition. -/
theorem ite_bool_to_prop {α : Type} (c : Bool) (P : Prop) [Decidable P]
    (h : c = true ↔ P) (x y : α) :
    (if c then x else y) = if P then x else y := by
  by_cases hp : P
  · rw [if_pos (h.mpr hp), if_pos hp]
  · rw [if_neg (fun hc => hp (h.mp hc)), if_neg hp]

/-- Field-wise behavior of the enrichment updates. -/
theorem enrich_apply_fields (b : BookEntity) (m : Metadata) :
    ((BookService.enrich_apply b m).cover_url =
      if strOptFalsy b.cover_url && !(strOptFalsy m.cover_url)
      then m.cover_url else b.cover_url) ∧
    ((BookService.enrich_apply b m).description =
      if strOptFalsy b.description && !(strOptFalsy m.description)
      then m.description else b.description) ∧
    ((BookService.enrich_apply b m).isbn =
      if strOptFalsy b.isbn && !(strOptFalsy m.isbn)
      then m.isbn else b.isbn) ∧
    ((BookService.enrich_apply b m).subjects =
      if m.subjects.isEmpty then b.subjects else m.subjects) ∧
    (BookService.enrich_apply b m).title = b.title ∧
    (BookService.enrich_apply b m).author = b.author ∧
    (BookService.enrich_apply b m).year_of_releasing = b.year_of_releasing ∧
    (BookService.enrich_apply b m).genre = b.genre ∧
    (BookService.enrich_apply b m).amount_of_pages = b.amount_of_pages ∧
    (BookService.enrich_apply b m).status = b.status ∧
    (BookService.enrich_apply b m).id = b.id ∧
    (BookService.enrich_apply b m).created_at = b.created_at ∧
    (BookService.enrich_apply b m).updated_at = b.updated_at := by
  cases hc : (strOptFalsy b.cover_url && !(strOptFalsy m.cover_url)) <;>
  cases hd : (strOptFalsy b.description && !(strOptFalsy m.description)) <;>
  cases hi : (strOptFalsy b.isbn && !(strOptFalsy m.isbn)) <;>
  cases hs : m.subjects.isEmpty <;>
    simp [BookService.enrich_apply, hc, hd, hi, hs]

/-! ## Claims -/

/-- Claim C10: the API output model produced by `entity_to_model` carries no
subjects information — two entities differing only in `subjects` map to the
same `Book` — while the repository's serialization does persist the subjects
list. -/
theorem entity_to_model_drops_subjects :
    ∀ (e : BookEntity) (subj : List Str),
      entity_to_model { e with subjects := subj } = entity_to_model e ∧
      (BookRepository.entity_to_dict e).subjects = some e.subjects :=
  fun _ _ => ⟨rfl, rfl⟩

/-- Claim C2, counterexample: when the blob-store backend cannot be reached,
`get_data` does not fail at all — it returns an empty sequence (the file
variant behaves the same on a read error). -/
theorem get_data_unreachable_returns_ok :
    JsonBinStorageClient.get_data JsonBinStorageClient.Backend.unreachable =
      Except.ok [] ∧
    FileStorageClient.get_data FileStorageClient.Backend.ioError =
      Except.ok [] :=
  ⟨rfl, rfl⟩

/-- Claim C2, amended: every variant returns an empty sequence without
failing when the backend is reachable but holds no data; when the backend
cannot be reached, the file and blob-store variants also absorb the error and
return an empty sequence, while the relational variant propagates the
backend's own error. -/
theorem get_data_per_variant :
    ∀ rs : List Record,
      FileStorageClient.get_data (.stored rs) = .ok rs ∧
      FileStorageClient.get_data .absent = .ok [] ∧
      FileStorageClient.get_data .blank = .ok [] ∧
      FileStorageClient.get_data .invalidJson = .ok [] ∧
      FileStorageClient.get_data .ioError = .ok [] ∧
      JsonBinStorageClient.get_data (.stored rs) = .ok rs ∧
      JsonBinStorageClient.get_data .unreachable = .ok [] ∧
      SQLAlchemyStorageClient.get_data (.stored rs) =
        .ok (rs.map fun r => { r with subjects := none }) ∧
      SQLAlchemyStorageClient.get_data .unreachable = .error .backendError :=
  fun _ => ⟨rfl, rfl, rfl, rfl, rfl, rfl, rfl, rfl, rfl⟩

/-- Claim C3: for every entity and collection state, repository `create`
returns the entity with the freshly assigned id, and `get_by_id` at that id
retrieves exactly that entity, field for field (the id being the only field
the repository rewrites). -/
theorem create_then_get_by_id_roundtrip :
    ∀ (e : BookEntity) (s : Store),
      (BookRepository.create e s).1 =
        { e with id := some (BookRepository.generate_next_id s.data) } ∧
      BookRepository.get_by_id (BookRepository.generate_next_id s.data)
          (BookRepository.create e s).2 = some (BookRepository.create e s).1 := by
  intro e s
  refine ⟨rfl, ?_⟩
  have hnone : s.data.find?
      (fun r => r.id == some (BookRepository.generate_next_id s.data)) = none := by
    rw [List.find?_eq_none]
    intro x hx hbeq
    have hid : x.id = some (BookRepository.generate_next_id s.data) := by
      simpa using hbeq
    have hlt := id_lt_generate_next_id s.data x hx
    rw [hid] at hlt
    simp at hlt
  simp [BookRepository.get_by_id, BookRepository.create, List.find?_append,
    hnone, List.find?_cons, BookRepository.entity_to_dict,
    BookRepository.dict_to_entity]

/-- Claim C6: repository `create` assigns the new entity's id as one more
than the maximum stored id (a missing id counting as 0), 1 on an empty
collection, appends the serialized record and writes back the whole
collection. -/
theorem create_assigns_max_id_plus_one :
    ∀ (e : BookEntity) (s : Store),
      (BookRepository.create e s).1 =
        { e with id := some (BookRepository.generate_next_id s.data) } ∧
      (BookRepository.create e s).2.data =
        s.data ++ [BookRepository.entity_to_dict
          { e with id := some (BookRepository.generate_next_id s.data) }] ∧
      (BookRepository.create e s).2.writes =
        s.writes ++ [(BookRepository.create e s).2.data] ∧
      (s.data = [] → BookRepository.generate_next_id s.data = 1) ∧
      (∀ r ∈ s.data, r.id.getD 0 < BookRepository.generate_next_id s.data) ∧
      (s.data ≠ [] → ∃ r ∈ s.data,
        BookRepository.generate_next_id s.data = r.id.getD 0 + 1) := by
  intro e s
  refine ⟨rfl, rfl, rfl, ?_, id_lt_generate_next_id s.data, ?_⟩
  · intro h; rw [h]; rfl
  · intro h
    cases hd : s.data with
    | nil => exact absurd hd h
    | cons x xs =>
      rcases foldl_maxId_attained xs (x.id.getD 0) with hm | ⟨r, hr, hm⟩
      · exact ⟨x, List.mem_cons_self _ _,
          by simp [BookRepository.generate_next_id, hm]⟩
      · exact ⟨r, List.mem_cons_of_mem _ hr,
          by simp [BookRepository.generate_next_id, hm]⟩

/-- Witness for C6 at concrete inputs: on a store whose single record has id
2 the created entity gets id 3, and the next id over an empty collection is
1. -/
theorem create_assigns_max_id_plus_one_witness :
    (BookRepository.create sampleEntity
        ⟨[sampleRecord 2 "Dune".data "Herbert".data], []⟩).1.id = some 3 ∧
    BookRepository.generate_next_id ([] : List Record) = 1 := by
  constructor
  · rw [(create_assigns_max_id_plus_one sampleEntity
        ⟨[sampleRecord 2 "Dune".data "Herbert".data], []⟩).1]
    decide
  · exact (create_assigns_max_id_plus_one sampleEntity ⟨[], []⟩).2.2.2.1 rfl

/-- Claim C7: deleting an id absent from the collection raises
`BookNotFoundError` and leaves the store untouched — in particular the
`save_data` write log is unchanged. -/
theorem delete_book_not_found_no_write (k : Int) (s : Store)
    (h : ∀ r ∈ s.data, r.id ≠ some k) :
    BookService.delete_book k s = (Except.error ServiceErr.bookNotFound, s) := by
  have hnone : s.data.find? (fun r => r.id == some k) = none := by
    rw [List.find?_eq_none]
    intro x hx hbeq
    exact h x hx (by simpa using hbeq)
  simp [BookService.delete_book, BookRepository.get_by_id, hnone]

/-- Witness for C7 at a concrete input: deleting id 2 from a store holding
only id 1 errors and changes nothing. -/
theorem delete_book_not_found_no_write_witness :
    BookService.delete_book 2 ⟨[sampleRecord 1 "Dune".data "Herbert".data], []⟩ =
      (Except.error ServiceErr.bookNotFound,
       ⟨[sampleRecord 1 "Dune".data "Herbert".data], []⟩) :=
  delete_book_not_found_no_write 2 _ (by decide)

/-- Claim C4: `get_filtered_books` returns the filtered sequence sliced to
`[offset, offset + limit)`, the total count of filtered matches before
pagination, and `has_next = offset + limit < total`; the items are empty
whenever the offset is at or beyond the filtered length. -/
theorem get_filtered_books_pagination :
    ∀ (f : BookFilters) (s : Store),
      (BookService.get_filtered_books f s).items =
        (((BookRepository.apply_filters
            (s.data.map BookRepository.dict_to_entity) f).drop f.offset).take
          f.limit).map entity_to_model ∧
      (BookService.get_filtered_books f s).total =
        (BookRepository.apply_filters
          (s.data.map BookRepository.dict_to_entity) f).length ∧
      (BookService.get_filtered_books f s).has_next =
        decide (f.offset + f.limit <
          (BookRepository.apply_filters
            (s.data.map BookRepository.dict_to_entity) f).length) ∧
      ((BookRepository.apply_filters
          (s.data.map BookRepository.dict_to_entity) f).length ≤ f.offset →
        (BookService.get_filtered_books f s).items = []) := by
  intro f s
  refine ⟨rfl, rfl, rfl, fun h => ?_⟩
  simp [BookService.get_filtered_books, BookRepository.get_all,
    PaginatedBooks.create, List.drop_eq_nil_of_le h]

/-- Witness for C4 at a concrete input: with offset 5 on a singleton
collection and no filters, the returned page is empty. -/
theorem get_filtered_books_pagination_witness :
    (BookService.get_filtered_books { offset := 5, limit := 20 }
        ⟨[sampleRecord 1 "Dune".data "Herbert".data], []⟩).items = [] :=
  (get_filtered_books_pagination { offset := 5, limit := 20 }
    ⟨[sampleRecord 1 "Dune".data "Herbert".data], []⟩).2.2.2 (by decide)

/-- Claim C8: an `update_book` with the empty partial input on a stored
(full) record changes exactly that record's `updated_at` field; every other
field of the stored record — and the rest of the collection — is unchanged. -/
theorem update_book_empty_update_frame (now : DT) (k : Int)
    (l₁ l₂ : List Record) (r : Record) (w : List (List Record))
    (h1 : ∀ x ∈ l₁, (x.id == some k) = false)
    (h2 : r.id = some k) (h3 : r.isFull = true) :
    BookService.update_book now k emptyBookUpdate ⟨l₁ ++ r :: l₂, w⟩ =
      (Except.ok (some (entity_to_model
        { BookRepository.dict_to_entity r with updated_at := some now })),
       ⟨l₁ ++ { r with updated_at := some now } :: l₂,
        w ++ [l₁ ++ { r with updated_at := some now } :: l₂]⟩) := by
  have hbeq : (r.id == some k) = true := by simp [h2]
  have hfind : (l₁ ++ r :: l₂).find? (fun x => x.id == some k) = some r :=
    find?_middle _ l₁ l₂ r h1 hbeq
  have hkey : ({ BookRepository.dict_to_entity r with
      updated_at := some now, id := some k } : BookEntity) =
      { BookRepository.dict_to_entity r with updated_at := some now } := by
    rw [← h2]
    rfl
  have hdict : BookRepository.entity_to_dict
      { BookRepository.dict_to_entity r with updated_at := some now } =
      { r with updated_at := some now } := by
    rw [entity_to_dict_set_updated_at, entity_to_dict_dict_to_entity r h3]
  have hupd := updateData_middle k
    { BookRepository.dict_to_entity r with updated_at := some now } l₁ l₂ r h1 hbeq
  rw [hkey, hdict] at hupd
  simp [BookService.update_book, BookRepository.get_by_id, hfind,
    BookRepository.update, hupd, applyUpdate_empty, hkey]

/-- Witness for C8 at a concrete input: updating record 1 with the empty
partial stamps only `updated_at`. -/
theorem update_book_empty_update_frame_witness :
    BookService.update_book 5 1 emptyBookUpdate
        ⟨[sampleRecord 1 "Dune".data "Herbert".data], []⟩ =
      (Except.ok (some (entity_to_model
        { BookRepository.dict_to_entity (sampleRecord 1 "Dune".data "Herbert".data)
          with updated_at := some 5 })),
       ⟨[{ sampleRecord 1 "Dune".data "Herbert".data with updated_at := some 5 }],
        [[{ sampleRecord 1 "Dune".data "Herbert".data with
            updated_at := some 5 }]]⟩) := by
  have h := update_book_empty_update_frame 5 1 [] []
    (sampleRecord 1 "Dune".data "Herbert".data) []
    (by simp) (by decide) (by decide)
  simpa using h

/-- Claim C5: the four filters are AND-combined; title, author and genre keep
exactly the books whose lowercased field contains the lowercased filter
string, while the status filter compares the status string for exact,
case-sensitive equality. -/
theorem apply_filters_characterization :
    ∀ (books : List BookEntity) (f : BookFilters),
      BookRepository.apply_filters books f = books.filter fun b =>
        (match f.title with
         | some t => containsSub (strLower b.title) (strLower t)
         | none => true) &&
        (match f.author with
         | some a => containsSub (strLower b.author) (strLower a)
         | none => true) &&
        (match f.status with
         | some st => b.status == st.value
         | none => true) &&
        (match f.genre with
         | some g => containsSub (strLower b.genre) (strLower g)
         | none => true) := by
  intro books f
  obtain ⟨t, a, st, g, off, lim⟩ := f
  cases t <;> cases a <;> cases st <;> cases g <;>
    simp only [BookRepository.apply_filters] <;>
    (try split_ifs) <;>
    simp_all [List.isEmpty_iff, List.filter_filter, containsSub_nil,
      List.filter_true, Bool.and_comm, Bool.and_assoc, Bool.and_left_comm,
      strLower]

/-- Claim C1, failing input: the collection holds "Dune Messiah" by Herbert
(id 1) and "Dune" by Herbert (id 2); creating "Dune" by Herbert — an exact
case-insensitive duplicate of the second stored record, as the first
conjunct shows — nevertheless succeeds.  The duplicate validation fetches
only one candidate (`limit = 1`) after substring prefiltering, and "Dune
Messiah" (a substring match) shadows the true duplicate. -/
theorem create_book_misses_shadowed_duplicate :
    ((⟨[sampleRecord 1 "Dune Messiah".data "Herbert".data,
        sampleRecord 2 "Dune".data "Herbert".data], []⟩ : Store).data.any fun r =>
      strLower (r.title.getD []) == strLower "Dune".data &&
      strLower (r.author.getD []) == strLower "Herbert".data) = true ∧
    (BookService.create_book none 2026 7
      { title := "Dune".data, author := "Herbert".data,
        year_of_releasing := 1965, genre := "Sci-Fi".data,
        amount_of_pages := 412 }
      ⟨[sampleRecord 1 "Dune Messiah".data "Herbert".data,
        sampleRecord 2 "Dune".data "Herbert".data], []⟩).1.isOk = true := by
  decide

/-- Claim C9, counterexample: the creation input explicitly sets
`description` to the empty string, yet enrichment overwrites it — the code
tests Python truthiness, under which an explicitly empty description counts
as unset.  The overwritten value is both returned and persisted. -/
theorem create_book_enrichment_overwrites_empty_description :
    emptyDescInput.description = some [] ∧
    (BookService.create_book (some constDescMetadata) 2026 7 emptyDescInput
        ⟨[], []⟩).1.map Book.description = Except.ok (some "Great".data) ∧
    (BookService.create_book (some constDescMetadata) 2026 7 emptyDescInput
        ⟨[], []⟩).2.data.map Record.description = [some "Great".data] ∧
    "Great".data ≠ ([] : Str) :=
  ⟨rfl, rfl, rfl, by decide⟩

/-- Claim C9, amended: with a configured metadata service and non-empty
title and author, enrichment fills `cover_url`, `description` and `isbn`
exactly when the entity's current value is missing **or empty** (so an
explicitly empty input value may be overwritten) and the metadata value is
non-empty; `subjects` is replaced whenever enrichment returned a non-empty
subjects list; no other field changes; and an enrichment failure is fully
absorbed — `create_book` behaves exactly as with no metadata service,
succeeding and persisting the unenriched entity. -/
theorem enrich_with_metadata_spec :
    ∀ (f : MetadataService) (b : BookEntity),
      (∀ er, f b.title b.author = .error er →
        BookService.enrich_with_metadata f b = b) ∧
      (∀ m, f b.title b.author = .ok m →
        ((BookService.enrich_with_metadata f b).cover_url =
          if (b.cover_url = none ∨ b.cover_url = some []) ∧
             ¬(m.cover_url = none ∨ m.cover_url = some [])
          then m.cover_url else b.cover_url) ∧
        ((BookService.enrich_with_metadata f b).description =
          if (b.description = none ∨ b.description = some []) ∧
             ¬(m.description = none ∨ m.description = some [])
          then m.description else b.description) ∧
        ((BookService.enrich_with_metadata f b).isbn =
          if (b.isbn = none ∨ b.isbn = some []) ∧
             ¬(m.isbn = none ∨ m.isbn = some [])
          then m.isbn else b.isbn) ∧
        ((BookService.enrich_with_metadata f b).subjects =
          if m.subjects = [] then b.subjects else m.subjects) ∧
        (BookService.enrich_with_metadata f b).title = b.title ∧
        (BookService.enrich_with_metadata f b).author = b.author ∧
        (BookService.enrich_with_metadata f b).year_of_releasing =
          b.year_of_releasing ∧
        (BookService.enrich_with_metadata f b).genre = b.genre ∧
        (BookService.enrich_with_metadata f b).amount_of_pages =
          b.amount_of_pages ∧
        (BookService.enrich_with_metadata f b).status = b.status ∧
        (BookService.enrich_with_metadata f b).id = b.id ∧
        (BookService.enrich_with_metadata f b).created_at = b.created_at ∧
        (BookService.enrich_with_metadata f b).updated_at = b.updated_at) ∧
      (∀ (currentYear : Int) (now : DT) (input : BookCreate) (s : Store) er,
        f input.title input.author = .error er →
        BookService.create_book (some f) currentYear now input s =
          BookService.create_book none currentYear now input s) := by
  intro f b
  refine ⟨?_, ?_, ?_⟩
  · intro er her
    simp [BookService.enrich_with_metadata, her]
  · intro m hm
    have hred : BookService.enrich_with_metadata f b =
        BookService.enrich_apply b m := by
      simp [BookService.enrich_with_metadata, hm]
    obtain ⟨h1, h2, h3, h4, hrest⟩ := enrich_apply_fields b m
    rw [hred]
    refine ⟨?_, ?_, ?_, ?_, hrest⟩
    · rw [h1, ite_bool_to_prop _ _ (fill_cond_iff _ _)]
    · rw [h2, ite_bool_to_prop _ _ (fill_cond_iff _ _)]
    · rw [h3, ite_bool_to_prop _ _ (fill_cond_iff _ _)]
    · rw [h4, ite_bool_to_prop _ _ List.isEmpty_iff]
  · intro currentYear now input s er her
    have habs : BookService.enrich_with_metadata f (model_to_entity now input) =
        model_to_entity now input := by
      simp [BookService.enrich_with_metadata, model_to_entity, her]
    cases hv : BookService.validate_book_creation currentYear input s <;>
      simp [BookService.create_book, hv, habs]

/-- Witness for the amended C9 at concrete inputs: enriching a fresh entity
whose description was explicitly set to the empty string, with a metadata
result whose description is "Great", fills the description. -/
theorem enrich_with_metadata_spec_witness :
    (BookService.enrich_with_metadata constDescMetadata
      (model_to_entity 7 emptyDescInput)).description = some "Great".data := by
  have h := (enrich_with_metadata_spec constDescMetadata
      (model_to_entity 7 emptyDescInput)).2.1
      { description := some "Great".data } rfl
  rw [h.2.1]
  decide

end LibraryCatalog
